import Mathlib

/-!
# Verification of `scrape_drama_data.py`

A shallow embedding of the scraping pipeline in `src/scrape_drama_data.py`.
HTML pages are modelled at the level of the queries the script performs on
them (each `soup.find`/`findAll` becomes a field of a page structure, with
`Option` marking elements that may be absent).  Python exceptions are
modelled with `Except Unit`; `try/except` blocks become `Option` matches.
The HTTP transport is a function from URL to an outcome (a status code, or
a transport failure that raises).
-/

namespace ScrapeDramaData

/-- `MAIN_URL` constant (line 30 of the source). -/
def MAIN_URL : String := "https://mydramalist.com/"

/-- Outcome of `requests.get(url)`: a completed response carrying a status
code, or a transport failure (e.g. `ConnectionError`), which in Python is a
raised exception. -/
inductive HttpOutcome where
  | ok (status : Nat)
  | transportError
  deriving DecidableEq, Repr

/-- `verify_url` (lines 33-44): performs one GET; returns `True` when the
status code is 200 and `False` otherwise.  A transport failure is not
caught, so it propagates as a raised exception (`Except.error`). -/
def verify_url (http : String → HttpOutcome) (url : String) : Except Unit Bool :=
  match http url with
  | .ok code => if code = 200 then .ok true else .ok false
  | .transportError => .error ()

/-- One list item of the second stats box (`li.list-item.p-a-0`):
`hft` is the text of its nested `span.hft` (absent ⇒ `none`), `text` its
raw text. -/
structure StatItem where
  hft : Option String
  text : String
  deriving DecidableEq, Repr

/-- The query-level view of a drama detail page, one field per selector
used by `get_drama_metadata` (lines 157-190):

* `showDetails`: the `div#show-detailsxx` container; when present, the list
  of its `div.hfs` blocks, each with the text of its nested `<b>` (absent ⇒
  `none`);
* `ratingDiv`: text of `div.col-film-rating`;
* `synopsisSpan`: the `div.show-synopsis` container; when present, the text
  of its nested `<span>` (absent ⇒ inner `none`);
* `tagsAnchors`: the `li.list-item.p-a-0.show-tags` container; when
  present, the texts of all its `<a>` descendants;
* `genresAnchors`: likewise for `li.list-item.p-a-0.show-genres`;
* `statBoxes`: the `div.box.clear.hidden-sm-down` containers, each as the
  list of its `li.list-item.p-a-0` items. -/
structure DetailPage where
  showDetails : Option (List (Option String))
  ratingDiv : Option String
  synopsisSpan : Option (Option String)
  tagsAnchors : Option (List String)
  genresAnchors : Option (List String)
  statBoxes : List (List StatItem)
  deriving DecidableEq, Repr

/-- The metadata record built by `get_drama_metadata` (lines 185-187).
`watchers = none` models the `np.nan` missing-value marker. -/
structure DramaMetadata where
  rating : String
  watchers : Option String
  synopsis : String
  tags : List String
  genres : List String
  raters : String
  rank : String
  popularity : String
  deriving DecidableEq, Repr

/-- The watchers probe (lines 163-166):
`page_det.findAll("div","hfs")[1].find("b").text` with every structural
failure (`page_det` is `None`, fewer than two `hfs` blocks, no `<b>`)
caught and replaced by `np.nan`. -/
def watchersOf (p : DetailPage) : Option String :=
  match p.showDetails with
  | none => none
  | some hfs =>
    match hfs[1]? with
    | none => none
    | some b => b

/-- `get_drama_metadata` (lines 147-190).  Required probes (rating,
synopsis, tags container, second stats box and its first three items) raise
on structural mismatch; watchers and genres fall back to `nan` / `[]`. -/
def get_drama_metadata (p : DetailPage) : Except Unit DramaMetadata :=
  match p.ratingDiv with
  | none => .error ()
  | some rating =>
    let watchers := watchersOf p
    match p.synopsisSpan with
    | none => .error ()
    | some none => .error ()
    | some (some synopsis) =>
      match p.tagsAnchors with
      | none => .error ()
      | some tags =>
        let gens := p.genresAnchors.getD []
        match p.statBoxes[1]? with
        | none => .error ()
        | some stat_list =>
          match stat_list[0]? with
          | none => .error ()
          | some it0 =>
            match it0.hft with
            | none => .error ()
            | some raters =>
              match stat_list[1]? with
              | none => .error ()
              | some it1 =>
                match stat_list[2]? with
                | none => .error ()
                | some it2 =>
                  .ok { rating := rating, watchers := watchers,
                        synopsis := synopsis, tags := tags, genres := gens,
                        raters := raters, rank := it1.text,
                        popularity := it2.text }

/-- Whether every required probe of `get_drama_metadata` succeeds
structurally (rating, synopsis, tags container, second stats box with at
least three items whose first carries a `span.hft`). -/
def detailOk (p : DetailPage) : Bool :=
  p.ratingDiv.isSome &&
  (match p.synopsisSpan with | some (some _) => true | _ => false) &&
  p.tagsAnchors.isSome &&
  (match p.statBoxes[1]? with
   | none => false
   | some sl =>
     (match sl[0]? with | some it => it.hft.isSome | none => false) &&
     sl[1]?.isSome && sl[2]?.isSome)

/-- The title element of a listing cell (`h6.text-primary.title`): its text,
and the `href` of its nested `<a>`. -/
structure TitleEl where
  text : String
  href : String
  deriving DecidableEq, Repr

/-- One listing-page entry container (`div.col-xs-9.row-cell.content`):
the text of its `span.text-muted` category label (absent ⇒ `none`) and its
title element (absent ⇒ `none`). -/
structure Cell where
  show_type : Option String
  title : Option TitleEl
  deriving DecidableEq, Repr

/-- A listing page as seen by `get_drama_info`: its entry containers in
document order. -/
structure ListingPage where
  cells : List Cell
  deriving DecidableEq, Repr

/-- A bucket search page as seen by `get_all_page_urls` (lines 63-77):
`lastPageControl` is the `href` of the `<a>` inside the first
`li.page-item.last` (any missing piece ⇒ `none`); `pageLinks` is the list
of texts of the `a.page-link` elements inside `ul.pagination`
(`ul.pagination` absent ⇒ `none`). -/
structure SearchPage where
  lastPageControl : Option String
  pageLinks : Option (List String)
  deriving DecidableEq, Repr

/-- The crawler's environment: the parsed view of every page the script
fetches, keyed by URL.  `http` gives the GET outcome used by `verify_url`;
`detail`, `listing` and `search` give the parsed content of detail,
listing and bucket-search pages. -/
structure World where
  http : String → HttpOutcome
  detail : String → DetailPage
  listing : String → ListingPage
  search : String → SearchPage

/-- Whether `pre` is a prefix of the second list (character lists, used to
model Python string operations by structural recursion). -/
def startsWithChars : List Char → List Char → Bool
  | [], _ => true
  | _ :: _, [] => false
  | a :: as, b :: bs => a == b && startsWithChars as bs

/-- Whether `needle` occurs as a contiguous sublist of the second list
(Python's `needle in hay` on strings). -/
def containsSub (needle : List Char) : List Char → Bool
  | [] => needle.isEmpty
  | c :: t => startsWithChars needle (c :: t) || containsSub needle t

/-- Python's `'Drama' in show_type` substring test (line 127). -/
def containsDrama (show_type : String) : Bool :=
  containsSub "Drama".toList show_type.toList

/-- The `drama_urls` dictionary of `get_drama_info` after some cells have
been processed.  It starts as `{'title':[], 'show_type':[], 'url':[]}`;
each qualifying cell OVERWRITES `title`/`show_type`/`url` with scalar
strings (the source assigns instead of appending), and
`drama_urls.update(get_drama_metadata(url))` overwrites the eight metadata
keys (each a one-element list) when the URL verified. -/
structure ScalarFields where
  title : String
  show_type : String
  url : String
  deriving DecidableEq, Repr

structure DramaUrls where
  fields : Option ScalarFields
  meta : Option DramaMetadata
  deriving DecidableEq, Repr

/-- The initial `drama_urls` dictionary (line 114). -/
def initDramaUrls : DramaUrls := { fields := none, meta := none }

/-- The body of `get_drama_info`'s `for cell in cell_content` loop
(lines 118-140), acting on the `drama_urls` dictionary:

* no category label: if the title element exists it is logged and the cell
  skipped; otherwise the logging line itself raises (`cell.find('h6',...)`
  is `None` and `.text` fails);
* label without the `Drama` marker: skipped;
* label with the marker: `title`/`show_type` are (over)written, the detail
  URL built and verified; on failure the `url` key gets the
  `needs_cleaning:` sentinel prefix (the metadata keys are left as they
  were); on success the `url` key gets the URL and the metadata keys are
  overwritten from `get_drama_metadata`.  A transport error inside
  `verify_url`, a missing title element, or a metadata extraction failure
  all propagate. -/
def processCell (w : World) (d : DramaUrls) (cell : Cell) : Except Unit DramaUrls :=
  match cell.show_type with
  | none =>
    match cell.title with
    | some _ => .ok d
    | none => .error ()
  | some st =>
    if containsDrama st then
      match cell.title with
      | none => .error ()
      | some t =>
        let url := MAIN_URL ++ t.href
        match verify_url w.http url with
        | .error e => .error e
        | .ok false =>
          .ok { fields := some ⟨t.text, st, "needs_cleaning:" ++ url⟩,
                meta := d.meta }
        | .ok true =>
          match get_drama_metadata (w.detail url) with
          | .error e => .error e
          | .ok md =>
            .ok { fields := some ⟨t.text, st, url⟩, meta := some md }
    else
      .ok d

/-- One row of the output table: the three listing columns and, when the
metadata columns exist in the frame, their values. -/
structure Row where
  title : String
  show_type : String
  url : String
  meta : Option DramaMetadata
  deriving DecidableEq, Repr

/-- `pd.DataFrame(drama_urls)` (line 144).  With the three keys still
holding the initial empty lists the frame has zero rows; with scalar
strings in all keys pandas raises `ValueError` (all-scalar dict, no
index); with scalars plus one-element metadata lists the scalars broadcast
to one row. -/
def dataFrameOfDict (d : DramaUrls) : Except Unit (List Row) :=
  match d.fields, d.meta with
  | none, none => .ok []
  | none, some _ => .error ()
  | some _, none => .error ()
  | some f, some m => .ok [⟨f.title, f.show_type, f.url, some m⟩]

/-- The `page_arg` parameter of `get_drama_info` (an `int` page number or a
page URL). -/
inductive PageArg where
  | num (n : Int)
  | url (s : String)
  deriving DecidableEq, Repr

/-- Lines 110-113: the URL fetched for a `page_arg`. -/
def pageUrlOf : PageArg → String
  | .num n => s!"{MAIN_URL}/shows/?page={n}"
  | .url s => s

/-- `get_drama_info` (lines 100-144): fold the loop body over the page's
entry containers starting from the fresh dictionary, then build the frame. -/
def get_drama_info (w : World) (page_arg : PageArg) : Except Unit (List Row) :=
  match (w.listing (pageUrlOf page_arg)).cells.foldlM (processCell w) initDramaUrls with
  | .error e => .error e
  | .ok d => dataFrameOfDict d

/-- `list(range(1, n+1))` for a Python `int` `n` (empty when `n ≤ 0`). -/
def rangeFrom1 (n : Int) : List Nat :=
  (List.range n.toNat).map (· + 1)

/-- `max_pages[len(max_pages)-2]` with Python indexing (line 73): for two or
more links the second-to-last, for exactly one link index `-1` wraps to
that link, for zero links `IndexError`. -/
def secondToLastText (xs : List String) : Option String :=
  match xs with
  | [] => none
  | [x] => some x
  | _ => xs[xs.length - 2]?

/-- Digits accumulator for `pyToInt`: `none` as soon as a non-digit char
appears. -/
def digitsValAux : List Char → Nat → Option Nat
  | [], acc => some acc
  | c :: rest, acc =>
    if c.isDigit then digitsValAux rest (acc * 10 + (c.toNat - 48)) else none

/-- Value of a non-empty all-digit character list, else `none`. -/
def digitsVal : List Char → Option Nat
  | [] => none
  | c :: rest => digitsValAux (c :: rest) 0

/-- Strips leading and trailing whitespace. -/
def trimChars (l : List Char) : List Char :=
  ((l.dropWhile (·.isWhitespace)).reverse.dropWhile (·.isWhitespace)).reverse

/-- Python's `int(s)` on a string: optional surrounding whitespace, an
optional sign, then one or more digits; `none` models the raised
`ValueError` on anything else. -/
def pyToInt (l : List Char) : Option Int :=
  match trimChars l with
  | '-' :: ds => (digitsVal ds).map (fun n => -(n : Int))
  | '+' :: ds => (digitsVal ds).map (fun n => (n : Int))
  | ds => (digitsVal ds).map (fun n => (n : Int))

/-- The suffix after the last occurrence of `sep` in the list, `none` when
`sep` does not occur.  For a border-free separator such as `"page="` this
is the last piece of Python's `split`. -/
def lastSplitAfter (sep : List Char) : List Char → Option (List Char)
  | [] => if sep.isEmpty then some [] else none
  | c :: rest =>
    match lastSplitAfter sep rest with
    | some r => some r
    | none =>
      if startsWithChars sep (c :: rest)
      then some (List.drop sep.length (c :: rest))
      else none

/-- `int(page_nums.split("page=")[-1])` (line 68): Python's `int` on the
last `split` piece, `none` when it raises `ValueError`. -/
def parseLastHref (href : String) : Option Int :=
  pyToInt
    (match lastSplitAfter "page=".toList href.toList with
     | some r => r
     | none => href.toList)

/-- The last-page index the fallback chain of lines 66-77 parses from a
bucket page: the last-page control's href if it parses (branch a), else the
second-to-last pagination link's text if it parses (branch b), else `none`
(branch c, single-page assumption). -/
def parsedIndex (sp : SearchPage) : Option Int :=
  match sp.lastPageControl.bind parseLastHref with
  | some n => some n
  | none =>
    match sp.pageLinks with
    | none => none
    | some links => (secondToLastText links).bind (fun txt => pyToInt txt.toList)

/-- The `page_nums` list one bucket iteration of `get_all_page_urls`
computes (lines 66-77). -/
def getPageNums (sp : SearchPage) : List Nat :=
  match parsedIndex sp with
  | some n => rangeFrom1 n
  | none => [1]

/-- The rating sweep `np.round(np.arange(5, 10.1, 0.1), 1)` (line 56), in
tenths: 50, 51, ..., 100. -/
def ratingTenths : List Nat := (List.range 51).map (fun k => 50 + k)

/-- How Python formats one swept rating value into the URL ("5.0", ...,
"10.0"). -/
def ratingStr (t : Nat) : String := s!"{t / 10}.{t % 10}"

/-- `page_temp` (line 54): the base search URL filtered to dramas. -/
def page_temp : String := MAIN_URL ++ "search?adv=titles&ty=68"

/-- `page_temps` (lines 57-60): one bucket URL per swept rating, with
`min=max=rating`. -/
def page_temps : List String :=
  ratingTenths.map (fun t => page_temp ++ "&rt=" ++ ratingStr t ++ "," ++ ratingStr t)

/-- `get_all_page_urls` (lines 47-81): for each bucket URL, parse its page
count through the fallback chain and emit `&page=pg` URLs for
`pg = 1..last`. -/
def get_all_page_urls (search : String → SearchPage) : List String :=
  page_temps.flatMap (fun purl =>
    (getPageNums (search purl)).map (fun pg => purl ++ "&page=" ++ toString pg))

/-- `scrape_serially` (lines 193-204): start from the empty frame and
concatenate each page's table in discovery order; the first raised
exception aborts the run. -/
def scrape_serially (w : World) : Except Unit (List Row) :=
  (get_all_page_urls w.search).foldlM
    (fun acc u =>
      match get_drama_info w (.url u) with
      | .error e => .error e
      | .ok t => .ok (acc ++ t))
    ([] : List Row)

/-- `scrape_in_parallel` (lines 207-219): `pool.map` returns the per-page
tables in input order (re-raising any worker's exception), then
`pd.concat` joins them. -/
def scrape_in_parallel (w : World) : Except Unit (List Row) :=
  match (get_all_page_urls w.search).mapM (fun u => get_drama_info w (.url u)) with
  | .error e => .error e
  | .ok results => .ok results.flatten

/-- The run configuration the `__main__` block actually uses. -/
structure MainConfig where
  is_scrape_parallel : Bool
  save_path : String
  deriving DecidableEq, Repr

/-- The `__main__` block (lines 222-229): `is_scrape_parallel` is the
literal `True` and `save_path` the literal `"/Users/rexxx"`; the
`sys.argv` reads are commented out, so the invocation's arguments are
never consulted. -/
def main_config (_argv : List String) : MainConfig :=
  { is_scrape_parallel := true, save_path := "/Users/rexxx" }

/-- `"{}/MDL_scrapped_data.csv".format(save_path)` (line 227). -/
def output_path (cfg : MainConfig) : String :=
  cfg.save_path ++ "/MDL_scrapped_data.csv"

/-- A cell whose `processCell` run is a no-op on the dictionary: a category
label without the `Drama` marker, or no label but a title element (the
logged "likely actor" case). -/
def skippable (cell : Cell) : Bool :=
  match cell.show_type with
  | some st => !containsDrama st
  | none => cell.title.isSome

/-- A detail page on which every probe of `get_drama_metadata` succeeds. -/
def goodDetailPage : DetailPage :=
  { showDetails := some [some "stats", some "12345"],
    ratingDiv := some "8.5",
    synopsisSpan := some (some "A synopsis."),
    tagsAnchors := some ["Tag1", "Tag2"],
    genresAnchors := some ["Romance", "Comedy"],
    statBoxes := [[],
      [⟨some "9,999 users", "hdr"⟩, ⟨none, "Ranked #12"⟩, ⟨none, "Popularity #34"⟩]] }

/-- The record `get_drama_metadata` extracts from `goodDetailPage`. -/
def goodMeta : DramaMetadata :=
  { rating := "8.5", watchers := some "12345", synopsis := "A synopsis.",
    tags := ["Tag1", "Tag2"], genres := ["Romance", "Comedy"],
    raters := "9,999 users", rank := "Ranked #12", popularity := "Popularity #34" }

/-- `goodDetailPage` with the genres container absent. -/
def genresMissingPage : DetailPage := { goodDetailPage with genresAnchors := none }

/-- The record extracted from `genresMissingPage`: genres fall back to `[]`. -/
def genresMissingMeta : DramaMetadata := { goodMeta with genres := [] }

/-- `goodDetailPage` with the tags container absent. -/
def noTagsPage : DetailPage := { goodDetailPage with tagsAnchors := none }

/-- A listing entry labelled as a drama, titled "Title A", linking to `/a`. -/
def cellA : Cell := ⟨some "Korean Drama", some ⟨"Title A", "/a"⟩⟩

/-- A listing entry labelled as a drama, titled "Title B", linking to `/b`. -/
def cellB : Cell := ⟨some "Korean Drama", some ⟨"Title B", "/b"⟩⟩

/-- A world where every fetch succeeds, every listing page shows the two
drama entries `cellA`, `cellB`, and every detail page is `goodDetailPage`. -/
def wC1 : World :=
  { http := fun _ => .ok 200,
    detail := fun _ => goodDetailPage,
    listing := fun _ => ⟨[cellA, cellB]⟩,
    search := fun _ => ⟨none, none⟩ }

/-- Like `wC1` except the GET on `cellB`'s detail URL returns 404, so its
URL fails validation. -/
def wC2 : World :=
  { http := fun u => if u = MAIN_URL ++ "/b" then .ok 404 else .ok 200,
    detail := fun _ => goodDetailPage,
    listing := fun _ => ⟨[cellA, cellB]⟩,
    search := fun _ => ⟨none, none⟩ }

/-- A world whose listing pages hold a single entry with neither a category
label nor a title element. -/
def wC7 : World :=
  { http := fun _ => .ok 200,
    detail := fun _ => goodDetailPage,
    listing := fun _ => ⟨[⟨none, none⟩]⟩,
    search := fun _ => ⟨none, none⟩ }

/-- A world where every bucket search page has no pagination controls and
every listing page shows the single valid entry `cellA`: all 51 discovered
pages yield the same row. -/
def wDup : World :=
  { http := fun _ => .ok 200,
    detail := fun _ => goodDetailPage,
    listing := fun _ => ⟨[cellA]⟩,
    search := fun _ => ⟨none, none⟩ }

/-- The row every page of `wDup` produces. -/
def rowA : Row := ⟨"Title A", "Korean Drama", MAIN_URL ++ "/a", some goodMeta⟩

/-- `goodDetailPage` with both optional containers structurally broken: no
`div#show-detailsxx` (watchers probe) and no genres container. -/
def optionalMissingPage : DetailPage :=
  { goodDetailPage with showDetails := none, genresAnchors := none }

/-- The record extracted from `optionalMissingPage`: watchers fall back to
the missing marker, genres to `[]`. -/
def optionalMissingMeta : DramaMetadata :=
  { goodMeta with watchers := none, genres := [] }

/-- A world whose listing pages hold one non-drama entry (label "Movie")
and one entry with no category label but a title element. -/
def wMovie : World :=
  { http := fun _ => .ok 200,
    detail := fun _ => goodDetailPage,
    listing := fun _ => ⟨[⟨some "Movie", some ⟨"M", "/m"⟩⟩, ⟨none, some ⟨"Actor X", "/people/x"⟩⟩]⟩,
    search := fun _ => ⟨none, none⟩ }

/-! ## Helper lemmas -/

/-- Every successful `get_drama_metadata` run returns the watchers probe's
fallback value, the genres fallback, the tags container's contents and the
rating element's text. -/
theorem metadata_ok_shape (p : DetailPage) (m : DramaMetadata)
    (h : get_drama_metadata p = Except.ok m) :
    m.watchers = watchersOf p ∧ m.genres = p.genresAnchors.getD [] ∧
    p.tagsAnchors = some m.tags ∧ p.ratingDiv = some m.rating := by
  unfold get_drama_metadata at h
  repeat' split at h
  all_goals simp_all
  all_goals subst h
  all_goals simp_all

/-- `get_drama_metadata` raises exactly when one of its required probes
mismatches. -/
theorem metadata_error_iff (p : DetailPage) :
    get_drama_metadata p = Except.error () ↔ detailOk p = false := by
  unfold get_drama_metadata detailOk
  repeat' split
  all_goals simp_all

/-! ## Claim theorems -/

/-- C5: in `get_drama_metadata`, a structural mismatch on the optional
probes (watchers, genres) substitutes the missing marker / empty sequence
and extraction continues, whereas extraction fails exactly when a required
probe (rating, synopsis, tags container, or the raters/rank/popularity
stats box) mismatches — `detailOk` lists precisely the required probes and
mentions neither watchers nor genres. -/
theorem metadata_optional_vs_required (p : DetailPage) :
    (∀ m, get_drama_metadata p = Except.ok m →
      m.watchers = watchersOf p ∧ m.genres = p.genresAnchors.getD []) ∧
    (get_drama_metadata p = Except.error () ↔ detailOk p = false) :=
  ⟨fun m h => ⟨(metadata_ok_shape p m h).1, (metadata_ok_shape p m h).2.1⟩,
   metadata_error_iff p⟩

/-- C5 witness: on a page missing both the watchers block and the genres
container, extraction still succeeds, with the marker and the empty list
substituted. -/
theorem metadata_optional_vs_required_witness :
    optionalMissingMeta.watchers = watchersOf optionalMissingPage ∧
    optionalMissingMeta.genres = optionalMissingPage.genresAnchors.getD [] :=
  (metadata_optional_vs_required optionalMissingPage).1 optionalMissingMeta rfl

/-- C9: running `get_drama_metadata` twice on the same unchanged detail
page yields records equal in all eight fields (the extractor is a pure
function of the page content). -/
theorem metadata_extraction_deterministic (p : DetailPage) (m₁ m₂ : DramaMetadata)
    (h₁ : get_drama_metadata p = Except.ok m₁)
    (h₂ : get_drama_metadata p = Except.ok m₂) :
    m₁.rating = m₂.rating ∧ m₁.watchers = m₂.watchers ∧
    m₁.synopsis = m₂.synopsis ∧ m₁.tags = m₂.tags ∧
    m₁.genres = m₂.genres ∧ m₁.raters = m₂.raters ∧
    m₁.rank = m₂.rank ∧ m₁.popularity = m₂.popularity := by
  rw [h₁] at h₂
  cases Except.ok.inj h₂
  exact ⟨rfl, rfl, rfl, rfl, rfl, rfl, rfl, rfl⟩

/-- C9 witness: two runs on `goodDetailPage` agree field by field. -/
theorem metadata_extraction_deterministic_witness :
    goodMeta.rating = goodMeta.rating ∧ goodMeta.watchers = goodMeta.watchers ∧
    goodMeta.synopsis = goodMeta.synopsis ∧ goodMeta.tags = goodMeta.tags ∧
    goodMeta.genres = goodMeta.genres ∧ goodMeta.raters = goodMeta.raters ∧
    goodMeta.rank = goodMeta.rank ∧ goodMeta.popularity = goodMeta.popularity :=
  metadata_extraction_deterministic goodDetailPage goodMeta goodMeta rfl rfl

/-- C10: absence of the tags container itself aborts extraction of the
whole record (no fallback), unlike genres, whose missing container falls
back to the empty sequence while extraction succeeds. -/
theorem tags_container_required :
    (∀ p : DetailPage, p.tagsAnchors = none → get_drama_metadata p = Except.error ()) ∧
    get_drama_metadata genresMissingPage = Except.ok genresMissingMeta := by
  constructor
  · rintro ⟨sd, rd, ss, ta, ga, sb⟩ hp
    dsimp only at hp
    subst hp
    cases rd with
    | none => rfl
    | some r =>
      cases ss with
      | none => rfl
      | some s => cases s <;> rfl
  · rfl

/-- C10 witness: a page lacking the tags container errors out, while the
same page lacking only the genres container extracts with `genres = []`. -/
theorem tags_container_required_witness :
    get_drama_metadata noTagsPage = Except.error () ∧
    get_drama_metadata genresMissingPage = Except.ok genresMissingMeta :=
  ⟨tags_container_required.1 noTagsPage rfl, tags_container_required.2⟩

/-- C3 counterexample: on a transport failure (connection error) the
uncaught `requests.get` exception propagates out of `verify_url`; the call
raises instead of returning `False`. -/
theorem verify_url_transport_error_raises :
    verify_url (fun _ => HttpOutcome.transportError) MAIN_URL = Except.error () ∧
    verify_url (fun _ => HttpOutcome.transportError) MAIN_URL ≠ Except.ok false :=
  ⟨rfl, fun h => Except.noConfusion h⟩

/-- C3 (amended): `verify_url` returns `True` iff the GET completes with
status 200, returns `False` for any completed non-200 status (with no
retry — the transport is consulted once, on the given URL only), and lets
a transport failure propagate as a raised exception. -/
theorem verify_url_status_characterization (http : String → HttpOutcome) (url : String) :
    (verify_url http url = Except.ok true ↔ http url = HttpOutcome.ok 200) ∧
    (∀ c, http url = HttpOutcome.ok c → c ≠ 200 → verify_url http url = Except.ok false) ∧
    (http url = HttpOutcome.transportError → verify_url http url = Except.error ()) := by
  refine ⟨?_, ?_, ?_⟩
  · unfold verify_url
    cases h : http url with
    | ok c =>
      by_cases hc : c = 200 <;> simp [hc]
    | transportError => simp
  · intro c h hne
    unfold verify_url
    rw [h]
    simp [hne]
  · intro h
    unfold verify_url
    rw [h]

/-- C3 witness: a 404 GET yields `False`, a 200 GET yields `True`. -/
theorem verify_url_status_characterization_witness :
    verify_url (fun _ => HttpOutcome.ok 404) MAIN_URL = Except.ok false ∧
    verify_url (fun _ => HttpOutcome.ok 200) MAIN_URL = Except.ok true :=
  ⟨(verify_url_status_characterization (fun _ => HttpOutcome.ok 404) MAIN_URL).2.1
      404 rfl (by decide),
   (verify_url_status_characterization (fun _ => HttpOutcome.ok 200) MAIN_URL).1.mpr rfl⟩

/-- C8: the `__main__` block ignores its invocation entirely — the mode
flag and destination directory reads are commented out, so any argument
vector yields parallel mode and the hard-coded path `/Users/rexxx`,
contradicting the module docstring's documented
`python scrape_drama_data.py <is_scrape_parallel> <save_path>` interface. -/
theorem main_config_ignores_invocation :
    main_config ["scrape_drama_data.py", "False", "/tmp/out"] =
      { is_scrape_parallel := true, save_path := "/Users/rexxx" } ∧
    main_config ["scrape_drama_data.py", "False", "/tmp/out"] = main_config [] ∧
    output_path (main_config ["scrape_drama_data.py", "False", "/tmp/out"]) =
      "/Users/rexxx/MDL_scrapped_data.csv" :=
  ⟨rfl, rfl, rfl⟩

/-- C1: on a listing page with two qualifying drama entries (both with
valid detail URLs), `get_drama_info` returns a single-row table holding
only the last entry — the loop assigns into the `drama_urls` dict instead
of appending, so each qualifying entry overwrites the previous one. -/
theorem get_drama_info_last_entry_only :
    (wC1.listing "p").cells.length = 2 ∧
    (∀ cell ∈ (wC1.listing "p").cells,
      ∃ st, cell.show_type = some st ∧ containsDrama st = true) ∧
    get_drama_info wC1 (PageArg.url "p") =
      Except.ok [{ title := "Title B", show_type := "Korean Drama",
                   url := MAIN_URL ++ "/b", meta := some goodMeta }] := by
  refine ⟨rfl, ?_, rfl⟩
  intro cell hc
  simp only [wC1, cellA, cellB, List.mem_cons, List.not_mem_nil, or_false] at hc
  rcases hc with h | h <;> subst h <;> exact ⟨"Korean Drama", rfl, by decide⟩

/-- C2: on a listing page whose first drama entry has a valid detail URL
and whose second entry's URL fails validation, the emitted row for the
second entry carries the sentinel-marked URL but ALSO the first entry's
eight metadata fields — the dict still holds the earlier
`get_drama_metadata` update, so the invariant "sentinel row carries no
DetailRecord fields" is violated. -/
theorem invalid_url_row_keeps_stale_metadata :
    verify_url wC2.http (MAIN_URL ++ "/b") = Except.ok false ∧
    verify_url wC2.http (MAIN_URL ++ "/a") = Except.ok true ∧
    get_drama_info wC2 (PageArg.url "p") =
      Except.ok [{ title := "Title B", show_type := "Korean Drama",
                   url := "needs_cleaning:" ++ (MAIN_URL ++ "/b"),
                   meta := some goodMeta }] :=
  ⟨rfl, rfl, rfl⟩

/-- A skippable cell (non-drama label, or labelless with a title) leaves
the `drama_urls` dictionary untouched. -/
theorem processCell_skippable (w : World) (d : DramaUrls) (cell : Cell)
    (h : skippable cell = true) : processCell w d cell = Except.ok d := by
  rcases cell with ⟨st, t⟩
  cases st with
  | none =>
    cases t with
    | none => simp [skippable] at h
    | some te => rfl
  | some s =>
    have hdr : containsDrama s = false := by simpa [skippable] using h
    unfold processCell
    simp [hdr]

/-- A fold of the loop body over skippable cells only returns the
dictionary unchanged. -/
theorem foldlM_skippable (w : World) (cells : List Cell)
    (h : ∀ cell ∈ cells, skippable cell = true) (d : DramaUrls) :
    cells.foldlM (processCell w) d = Except.ok d := by
  induction cells with
  | nil => rfl
  | cons c cs ih =>
    rw [List.foldlM_cons, processCell_skippable w d c (h c (List.mem_cons_self c cs))]
    exact ih (fun cell hc => h cell (List.mem_cons_of_mem c hc))

/-- C7 counterexample: an entry with neither a category label nor a title
element makes `get_drama_info` raise — the `except` branch's logging line
dereferences the missing title (`cell.find('h6', ...).text`), so the entry
is not "logged and skipped". -/
theorem unlabeled_untitled_entry_raises :
    (wC7.listing "p").cells = [{ show_type := none, title := none }] ∧
    get_drama_info wC7 (PageArg.url "p") = Except.error () :=
  ⟨rfl, rfl⟩

/-- C7 (amended): an entry whose category label lacks the `Drama` marker
is dropped (the dictionary is untouched, so it never contributes to a
row), an entry with no category label but with a title element is logged
and skipped, an entry with neither raises and aborts the page, and a page
all of whose entries are skipped yields the empty table. -/
theorem nonqualifying_entries_dropped (w : World) :
    (∀ (d : DramaUrls) (cell : Cell) (st : String), cell.show_type = some st →
      containsDrama st = false → processCell w d cell = Except.ok d) ∧
    (∀ (d : DramaUrls) (cell : Cell), cell.show_type = none → cell.title.isSome →
      processCell w d cell = Except.ok d) ∧
    (∀ d : DramaUrls, processCell w d { show_type := none, title := none } =
      Except.error ()) ∧
    (∀ u, (∀ cell ∈ (w.listing u).cells, skippable cell = true) →
      get_drama_info w (PageArg.url u) = Except.ok []) := by
  refine ⟨?_, ?_, fun d => rfl, ?_⟩
  · intro d cell st hst hdr
    refine processCell_skippable w d cell ?_
    unfold skippable
    rw [hst]
    simp [hdr]
  · intro d cell hst ht
    refine processCell_skippable w d cell ?_
    unfold skippable
    rw [hst]
    exact ht
  · intro u h
    simp only [get_drama_info, pageUrlOf]
    rw [foldlM_skippable w _ h initDramaUrls]
    rfl

/-- C7 witness: a "Movie" entry and a labelless-but-titled entry are both
skipped, a label-and-titleless entry raises, and a page of only such
skippable entries yields the empty table. -/
theorem nonqualifying_entries_dropped_witness :
    processCell wMovie initDramaUrls ⟨some "Movie", some ⟨"M", "/m"⟩⟩ =
      Except.ok initDramaUrls ∧
    processCell wMovie initDramaUrls ⟨none, some ⟨"Actor X", "/people/x"⟩⟩ =
      Except.ok initDramaUrls ∧
    processCell wMovie initDramaUrls ⟨none, none⟩ = Except.error () ∧
    get_drama_info wMovie (PageArg.url "p") = Except.ok [] :=
  ⟨(nonqualifying_entries_dropped wMovie).1 initDramaUrls _ "Movie" rfl (by decide),
   (nonqualifying_entries_dropped wMovie).2.1 initDramaUrls _ rfl rfl,
   (nonqualifying_entries_dropped wMovie).2.2.1 initDramaUrls,
   (nonqualifying_entries_dropped wMovie).2.2.2 "p" (by decide)⟩

/-- Whenever a bucket's page-number list is nonempty, it contains page 1. -/
theorem one_mem_getPageNums (sp : SearchPage) (h : getPageNums sp ≠ []) :
    1 ∈ getPageNums sp := by
  unfold getPageNums rangeFrom1 at h ⊢
  cases hp : parsedIndex sp with
  | none => simp
  | some n =>
    rw [hp] at h
    dsimp only at h ⊢
    have hpos : 0 < n.toNat := by
      rcases Nat.eq_zero_or_pos n.toNat with h0 | h0
      · rw [h0] at h; simp at h
      · exact h0
    exact List.mem_map.mpr ⟨0, List.mem_range.mpr hpos, rfl⟩

/-- C6 counterexample: when a bucket's last-page control points at
`page=0`, `int` parses 0, `range(1, 1)` is empty, and the bucket emits no
URL at all — here every one of the 51 buckets emits nothing. -/
theorem discovery_zero_page_bucket :
    page_temps.length = 51 ∧
    get_all_page_urls
      (fun _ => { lastPageControl := some "page=0", pageLinks := none }) = [] :=
  ⟨rfl, rfl⟩

/-- C6 (amended): the discoverer sweeps exactly the 51 rating buckets
5.0, 5.1, ..., 10.0 and never raises; a bucket on which neither pagination
control parses defaults to the single page 1; every bucket whose parsed
page-number list is nonempty (in particular every such fallback bucket)
emits its page-1 URL; and a bucket emits zero URLs exactly when a
pagination control parses to a last-page index ≤ 0. -/
theorem discovery_sweep_and_fallback (search : String → SearchPage) :
    page_temps.length = 51 ∧
    page_temps.head? = some (page_temp ++ "&rt=5.0,5.0") ∧
    page_temps.getLast? = some (page_temp ++ "&rt=10.0,10.0") ∧
    (∀ sp : SearchPage, parsedIndex sp = none → getPageNums sp = [1]) ∧
    (∀ purl ∈ page_temps, getPageNums (search purl) ≠ [] →
      (purl ++ "&page=" ++ "1") ∈ get_all_page_urls search) ∧
    (∀ sp : SearchPage, getPageNums sp = [] ↔
      ∃ n, parsedIndex sp = some n ∧ n ≤ 0) := by
  refine ⟨rfl, rfl, by decide, ?_, ?_, ?_⟩
  · intro sp h
    unfold getPageNums
    rw [h]
  · intro purl hp hne
    unfold get_all_page_urls
    refine List.mem_flatMap.mpr ⟨purl, hp, List.mem_map.mpr ⟨1, one_mem_getPageNums _ hne, rfl⟩⟩
  · intro sp
    unfold getPageNums
    cases hp : parsedIndex sp with
    | none => simp
    | some n =>
      unfold rangeFrom1
      simp [List.range_eq_nil, Int.toNat_eq_zero]

/-- C6 witness: with no pagination controls anywhere, each bucket defaults
to one page, and the 5.0 bucket's page-1 URL is emitted. -/
theorem discovery_sweep_and_fallback_witness :
    getPageNums { lastPageControl := none, pageLinks := none } = [1] ∧
    ((page_temp ++ "&rt=5.0,5.0") ++ "&page=" ++ "1") ∈
      get_all_page_urls (fun _ => { lastPageControl := none, pageLinks := none }) :=
  ⟨(discovery_sweep_and_fallback (fun _ => ⟨none, none⟩)).2.2.2.1 ⟨none, none⟩ rfl,
   (discovery_sweep_and_fallback (fun _ => ⟨none, none⟩)).2.2.2.2.1
     (page_temp ++ "&rt=5.0,5.0") (by decide) (by decide)⟩

/-- The serial fold over any URL list equals the parallel map-then-flatten
over the same list, prefixed by the accumulator. -/
theorem serialAux_eq (w : World) (urls : List String) (acc : List Row) :
    urls.foldlM
      (fun a u =>
        match get_drama_info w (.url u) with
        | .error e => .error e
        | .ok t => .ok (a ++ t)) acc
      = (urls.mapM (fun u => get_drama_info w (.url u))).map
          (fun ts => acc ++ ts.flatten) := by
  induction urls generalizing acc with
  | nil =>
    rw [List.mapM_nil]
    show Except.ok acc = Except.ok (acc ++ [])
    rw [List.append_nil]
  | cons x xs ih =>
    rw [List.foldlM_cons, List.mapM_cons]
    cases hf : get_drama_info w (.url x) with
    | error e => rfl
    | ok t =>
      show List.foldlM _ (acc ++ t) xs = _
      rw [ih (acc ++ t)]
      cases hm : xs.mapM (fun u => get_drama_info w (.url u)) with
      | error e => rfl
      | ok ts =>
        show Except.ok (acc ++ t ++ ts.flatten) = Except.ok (acc ++ (t :: ts).flatten)
        rw [List.flatten_cons, List.append_assoc]

/-- C4: over the same fixed discovered URL set, serial and parallel
aggregation return the same value — the same rows in the same order
(`pool.map` preserves input order), hence equal row multisets — and both
equal the plain concatenation of the per-page tables, which deduplicates
nothing: a title appearing on several listing pages contributes one row
per appearance. -/
theorem serial_parallel_agree (w : World) :
    scrape_serially w = scrape_in_parallel w ∧
    (∀ tables,
      (get_all_page_urls w.search).mapM (fun u => get_drama_info w (.url u)) =
        Except.ok tables →
      scrape_serially w = Except.ok tables.flatten ∧
      scrape_in_parallel w = Except.ok tables.flatten) := by
  have h1 : scrape_serially w = scrape_in_parallel w := by
    unfold scrape_serially scrape_in_parallel
    rw [serialAux_eq]
    cases hm : (get_all_page_urls w.search).mapM
        (fun u => get_drama_info w (.url u)) with
    | error e => rfl
    | ok ts =>
      show Except.ok ([] ++ ts.flatten) = Except.ok ts.flatten
      rw [List.nil_append]
  refine ⟨h1, fun tables ht => ?_⟩
  have h2 : scrape_in_parallel w = Except.ok tables.flatten := by
    unfold scrape_in_parallel
    rw [ht]
  exact ⟨h1.trans h2, h2⟩

/-- C4 witness: in a world where all 51 discovered pages show the same
single drama entry, both modes return the same table of 51 duplicate rows
(nothing deduplicated). -/
theorem serial_parallel_agree_witness :
    scrape_serially wDup = scrape_in_parallel wDup ∧
    scrape_serially wDup = Except.ok (List.replicate 51 [rowA]).flatten ∧
    scrape_in_parallel wDup = Except.ok (List.replicate 51 [rowA]).flatten :=
  ⟨(serial_parallel_agree wDup).1,
   ((serial_parallel_agree wDup).2 (List.replicate 51 [rowA]) rfl).1,
   ((serial_parallel_agree wDup).2 (List.replicate 51 [rowA]) rfl).2⟩

end ScrapeDramaData
